import Mathlib

/-!
Shallow embedding of `src/host-checker.py` (host-checker repository).

The script gathers a host list and a recipient list from an ini-style
configuration file and from command-line flags, pings each host, and
mails a plain-text report through one of two mail-sender strategies.
The definitions below translate the Python source function by function;
theorems about them settle the specification claims.
-/

namespace HostChecker

/-! ## Python string helpers

`str.strip()` removes leading and trailing whitespace;
`s.split(",")` splits on every comma and never returns an empty list
(splitting the empty string yields `[""]`). -/

/-- Characters stripped by Python's `str.strip()` (the ASCII ones). -/
def pySpace (c : Char) : Bool :=
  c = ' ' || c = '\t' || c = '\n' || c = '\x0d' || c = '\x0b' || c = '\x0c'

/-- Python `s.strip()`. -/
def pyStrip (s : String) : String :=
  ⟨((s.data.dropWhile pySpace).reverse.dropWhile pySpace).reverse⟩

/-- Python `s.split(",")` on the character list: split at every comma;
the result always has at least one element (splitting `""` gives `[""]`). -/
def pySplitCommaAux : List Char → List Char → List String
  | [], acc => [⟨acc.reverse⟩]
  | c :: rest, acc =>
    if c = ',' then (⟨acc.reverse⟩ : String) :: pySplitCommaAux rest []
    else pySplitCommaAux rest (c :: acc)

/-- Python `s.split(",")`. -/
def pySplitComma (s : String) : List String := pySplitCommaAux s.data []

/-- Python `[x.strip() for x in s.split(",")]`, the list shape used for
both `Hosts` and `Recipients` values. -/
def splitStrip (s : String) : List String :=
  (pySplitComma s).map pyStrip

/-! ## Mail senders (strategy selection)

`Config._sender` holds either a `sendmail_MailSender` (local transport)
or an `smtplib_MailSender` with its relay address. -/

/-- Which mail-sender strategy a `Config` holds, with the relay server
address for the `smtplib` strategy. -/
inductive MailSender where
  | sendmail : MailSender
  | smtplib (server_address : String) : MailSender
deriving DecidableEq, Repr

/-! ## Config -/

/-- The mutable state of the Python `Config` class: `_hosts`,
`_recipients` and `_sender`. -/
structure Config where
  hosts : List String
  recipients : List String
  sender : MailSender
deriving DecidableEq, Repr

/-- `Config.__init__`: empty lists, local-transport sender. -/
def Config.init : Config :=
  { hosts := [], recipients := [], sender := MailSender.sendmail }

/-- The `[General]` section of a parsed configuration file: the `Hosts`
and `Recipients` keys, each possibly absent. -/
structure GeneralSection where
  hostsKey : Option String
  recipientsKey : Option String
deriving DecidableEq, Repr

/-- The `[MailSender]` section of a parsed configuration file: the
`Type` and `Address` keys, each possibly absent. -/
structure MailSenderSection where
  typeKey : Option String
  addressKey : Option String
deriving DecidableEq, Repr

/-- A configuration file as `configparser.ConfigParser` presents it to
`Config.read_file`: the two sections it consults, each possibly absent. -/
structure IniFile where
  general : Option GeneralSection
  mailSender : Option MailSenderSection
deriving DecidableEq, Repr

/-- `Config.read_file`: the `General` section replaces `_hosts` when the
`Hosts` value is present and non-empty (`parser['General'].get('Hosts', '')`
followed by a truthiness test), and likewise `_recipients`; the
`MailSender` section replaces `_sender` when `Type` is `smtplib`
(address from `Address`, default `'localhost'`) or `sendmail`, and is
otherwise ignored. -/
def Config.read_file (c : Config) (f : IniFile) : Config :=
  let c1 :=
    match f.general with
    | none => c
    | some g =>
      let hostsline := g.hostsKey.getD ""
      let c' := if hostsline ≠ "" then { c with hosts := splitStrip hostsline } else c
      match g.recipientsKey with
      | none => c'
      | some r => if r ≠ "" then { c' with recipients := splitStrip r } else c'
  match f.mailSender with
  | none => c1
  | some m =>
    if m.typeKey = some "smtplib" then
      { c1 with sender := MailSender.smtplib (m.addressKey.getD "localhost") }
    else if m.typeKey = some "sendmail" then
      { c1 with sender := MailSender.sendmail }
    else c1

/-- The command line as `argparse` hands it to `Config.read_argv`: the
raw values of `-H`/`--hosts` and `-r`/`--recipients`, each `none` when
the flag is absent.  The `type=lambda s: [x.strip() for x in s.split(",")]`
conversion is applied in `Config.read_argv` below. -/
structure Argv where
  hostsArg : Option String
  recipientsArg : Option String
deriving DecidableEq, Repr

/-- `Config.read_argv`: each flag value is split on commas and stripped;
the resulting list replaces the stored one when it is truthy (non-empty
as a Python list). -/
def Config.read_argv (c : Config) (a : Argv) : Config :=
  let c1 :=
    match a.hostsArg.map splitStrip with
    | none => c
    | some l => if l ≠ [] then { c with hosts := l } else c
  match a.recipientsArg.map splitStrip with
  | none => c1
  | some l => if l ≠ [] then { c1 with recipients := l } else c1

/-- One configuration source, in the order `main` applies them: file
reads (`/etc/host-checker`, `~/.host-checker`), then the command line. -/
inductive ConfigSource where
  | file (f : IniFile)
  | argv (a : Argv)
deriving DecidableEq, Repr

/-- Apply one source to a `Config`. -/
def Config.readSource (c : Config) : ConfigSource → Config
  | ConfigSource.file f => c.read_file f
  | ConfigSource.argv a => c.read_argv a

/-- Apply a sequence of sources left to right, as `main` does. -/
def Config.readSources (c : Config) (ss : List ConfigSource) : Config :=
  ss.foldl Config.readSource c

/-- The hosts list a source supplies: `some l` when the source carries a
present, non-empty `Hosts` value (file) or a present `--hosts` flag
(argv, whose split list is never the empty list), `none` otherwise.
This is the claim's notion of "supplies a non-empty hosts list". -/
def suppliesHosts : ConfigSource → Option (List String)
  | ConfigSource.file f =>
    match f.general with
    | none => none
    | some g =>
      let hostsline := g.hostsKey.getD ""
      if hostsline ≠ "" then some (splitStrip hostsline) else none
  | ConfigSource.argv a =>
    match a.hostsArg.map splitStrip with
    | none => none
    | some l => if l ≠ [] then some l else none

/-- The recipients list a source supplies, mirroring `suppliesHosts`. -/
def suppliesRecipients : ConfigSource → Option (List String)
  | ConfigSource.file f =>
    match f.general with
    | none => none
    | some g =>
      match g.recipientsKey with
      | none => none
      | some r => if r ≠ "" then some (splitStrip r) else none
  | ConfigSource.argv a =>
    match a.recipientsArg.map splitStrip with
    | none => none
    | some l => if l ≠ [] then some l else none

/-- Whether a source carries a `[MailSender]` section. -/
def hasMailSenderSection : ConfigSource → Bool
  | ConfigSource.file f => f.mailSender.isSome
  | ConfigSource.argv _ => false

/-! ## Probe interpretation (`check_ping`)

`check_ping` waits for the ping process, reads its captured output, and
searches the decoded standard output for the regular expression
`([0-9]+)% packet loss`.  A first match with a group other than the
string `'0'` is an immediate failure carrying that percentage;
otherwise success is exactly a zero exit status, and a non-zero exit
status formats the captured (bytes) stdout and stderr into the message. -/

/-- The character class `[0-9]` of the regular expression. -/
def pyDigit (c : Char) : Bool := '0' ≤ c && c ≤ '9'

/-- Try the regex `([0-9]+)% packet loss` anchored at the start of `l`:
a non-empty greedy digit run followed by the literal `% packet loss`.
(`[0-9]+` cannot usefully backtrack here, because giving back a digit
would put a digit where the literal's `%` must be.) -/
def matchLossAt (l : List Char) : Option (List Char) :=
  let ds := l.takeWhile pyDigit
  if ds.isEmpty then none
  else if List.isPrefixOf ("% packet loss".data) (l.dropWhile pyDigit) then some ds
  else none

/-- `re.search`: the leftmost position where the pattern matches. -/
def searchLoss : List Char → Option (List Char)
  | [] => none
  | c :: rest =>
    match matchLossAt (c :: rest) with
    | some g => some g
    | none => searchLoss rest

/-- `re.search('([0-9]+)% packet loss', stdout.decode())`, returning
`mo.group(1)` (the digit string) when a match exists. -/
def parsePacketLoss (s : String) : Option String :=
  (searchLoss s.data).map fun l => ⟨l⟩

/-- Python's rendering of a `bytes` value under `"%s"` formatting
(`b'...'`), for output text with no escape-needing characters; the
captured `stdout`/`stderr` of the ping process are bytes. -/
def pyBytesRepr (s : String) : String := "b" ++ "\x27" ++ s ++ "\x27"

/-- The message of `check_ping`'s final `return` when the exit code is
non-zero: `"stdout: %s, stderr: %s" % (stdout, stderr)`. -/
def capturedOutputMsg (stdoutS stderrS : String) : String :=
  "stdout: " ++ pyBytesRepr stdoutS ++ ", stderr: " ++ pyBytesRepr stderrS

/-- `check_ping`, as a function of the probe outcome it inspects: the
decoded standard output, the standard error, and the process exit code.
Returns the `(success, message)` pair. -/
def check_ping (stdoutS stderrS : String) (exitcode : Nat) : Bool × String :=
  let rest : Bool × String :=
    (exitcode == 0, if exitcode == 0 then "" else capturedOutputMsg stdoutS stderrS)
  match parsePacketLoss stdoutS with
  | some g => if g ≠ "0" then (false, g ++ "% packet loss.") else rest
  | none => rest

/-! ## Mail delivery -/

/-- What one run of `sendmail_MailSender.send` did: the recipients for
which a `/usr/sbin/sendmail` process was spawned (in order), those whose
invocation exited 0 after the message was written, and the exception
raised, if any. -/
structure SendOutcome where
  attempted : List String
  delivered : List String
  error : Option String
deriving DecidableEq, Repr

/-- The loop of `sendmail_MailSender.send` starting at invocation
number `k`: spawn `/usr/sbin/sendmail recipient`, write the message,
and `raise Exception("sendmail failed.")` on the first non-zero
`proc.wait()`, abandoning the remaining recipients.  `exit i` is the
exit status of the `i`-th invocation of the run. -/
def sendmail_send_from (exit : Nat → Nat) : Nat → List String → SendOutcome
  | _, [] => { attempted := [], delivered := [], error := none }
  | k, r :: rs =>
    if exit k ≠ 0 then
      { attempted := [r], delivered := [], error := some "sendmail failed." }
    else
      let t := sendmail_send_from exit (k + 1) rs
      { attempted := r :: t.attempted, delivered := r :: t.delivered, error := t.error }

/-- `sendmail_MailSender.send` on a recipient list, with `exit` giving
each successive invocation's exit status. -/
def sendmail_send (exit : Nat → Nat) (recipients : List String) : SendOutcome :=
  sendmail_send_from exit 0 recipients

/-- `smtplib_MailSender.send`.  Its body reads
`server = smptlib.SMTP(self.server_address)`: the name `smptlib` is
undefined (the module imported is `smtplib`), so every call raises
`NameError` before anything is submitted to the relay. -/
def smtplib_send (server_address : String) (recipients : List String)
    (mimetext : String) : Except String Unit :=
  Except.error ("NameError: name \x27smptlib\x27 is not defined")

/-! ## Report building (`send_email_report`) -/

/-- Python `sep.join(l)`. -/
def pyJoin (sep : String) : List String → String
  | [] => ""
  | [x] => x
  | x :: y :: ys => x ++ sep ++ pyJoin sep (y :: ys)

/-- Concatenation of the failure lines appended by the `for host in
failures` loop; `failures` is the dict in its (insertion) iteration
order, as an association list. -/
def failureLines (failures : List (String × String)) : String :=
  match failures with
  | [] => ""
  | p :: ps => " - " ++ p.1 ++ " failed with the following error: " ++ p.2 ++ "\n"
      ++ failureLines ps

/-- The body text `msg` built by `send_email_report`. -/
def reportBody (hosts : List String) (failures : List (String × String)) : String :=
  "HostChecker report\n\nHostChecker has checked the following hosts:\n"
  ++ pyJoin "\n" (hosts.map fun host => " - " ++ host)
  ++ "\n\n"
  ++ (if failures = [] then "All hosts are up." else failureLines failures)
  ++ "\n\nBest regards,\nHostChecker"

/-- The `MIMEText` message `send_email_report` hands to the sender. -/
structure MimeMessage where
  body : String
  subjectHeader : String
  fromHeader : String
  toHeader : String
deriving DecidableEq, Repr

/-- `send_email_report`, up to the point where it calls
`mailsender.send(recipients, mimetext)`: the message it sends. -/
def send_email_report (hosts : List String) (failures : List (String × String))
    (recipients : List String) : MimeMessage :=
  { body := reportBody hosts failures
    subjectHeader := "HostChecker report"
    fromHeader := "HostChecker"
    toHeader := pyJoin ", " recipients }

/-! ## Substring occurrence -/

/-- `occursIn pat s`: `pat` appears contiguously inside `s`. -/
def occursIn (pat s : String) : Prop :=
  ∃ l r, s.data = l ++ pat.data ++ r

/-! ## Configuration merge lemmas -/

lemma readSource_hosts (c : Config) (s : ConfigSource) :
    (c.readSource s).hosts = (suppliesHosts s).getD c.hosts := by
  cases s with
  | file f =>
    obtain ⟨g, m⟩ := f
    cases g <;> cases m <;>
      simp only [Config.readSource, Config.read_file, suppliesHosts] <;>
      (repeat' split) <;> simp_all
  | argv a =>
    obtain ⟨h, r⟩ := a
    cases h <;> cases r <;>
      simp only [Config.readSource, Config.read_argv, suppliesHosts, Option.map] <;>
      (repeat' split) <;> simp_all

lemma readSource_recipients (c : Config) (s : ConfigSource) :
    (c.readSource s).recipients = (suppliesRecipients s).getD c.recipients := by
  cases s with
  | file f =>
    obtain ⟨g, m⟩ := f
    cases g <;> cases m <;>
      simp only [Config.readSource, Config.read_file, suppliesRecipients] <;>
      (repeat' split) <;> simp_all
  | argv a =>
    obtain ⟨h, r⟩ := a
    cases h <;> cases r <;>
      simp only [Config.readSource, Config.read_argv, suppliesRecipients, Option.map] <;>
      (repeat' split) <;> simp_all

/-- C1: applying any sequence of configuration sources (file reads,
then command-line reads) folds each field by last-non-empty-wins: a
source that supplies a non-empty hosts or recipients list replaces the
stored list entirely, and a source that supplies nothing for a field
leaves the previously stored value unchanged. -/
theorem config_merge_last_non_empty_wins (c : Config) (ss : List ConfigSource) :
    (c.readSources ss).hosts
        = ss.foldl (fun acc s => (suppliesHosts s).getD acc) c.hosts
    ∧ (c.readSources ss).recipients
        = ss.foldl (fun acc s => (suppliesRecipients s).getD acc) c.recipients := by
  induction ss generalizing c with
  | nil => exact ⟨rfl, rfl⟩
  | cons s ss ih =>
    have h := ih (c.readSource s)
    constructor
    · simpa [Config.readSources, List.foldl, readSource_hosts c s] using h.1
    · simpa [Config.readSources, List.foldl, readSource_recipients c s] using h.2

/-- C1 witness: file source with hosts `a.com,b.com`, then a file
source with only recipients, then argv `--hosts c.com`. -/
theorem config_merge_last_non_empty_wins_witness :
    (Config.init.readSources
      [ConfigSource.file ⟨some ⟨some "a.com,b.com", none⟩, none⟩,
       ConfigSource.file ⟨some ⟨none, some "x@y.com"⟩, none⟩,
       ConfigSource.argv ⟨some "c.com", none⟩]).hosts = ["c.com"]
    ∧ (Config.init.readSources
      [ConfigSource.file ⟨some ⟨some "a.com,b.com", none⟩, none⟩,
       ConfigSource.file ⟨some ⟨none, some "x@y.com"⟩, none⟩,
       ConfigSource.argv ⟨some "c.com", none⟩]).recipients = ["x@y.com"] := by
  have h := config_merge_last_non_empty_wins Config.init
      [ConfigSource.file ⟨some ⟨some "a.com,b.com", none⟩, none⟩,
       ConfigSource.file ⟨some ⟨none, some "x@y.com"⟩, none⟩,
       ConfigSource.argv ⟨some "c.com", none⟩]
  exact ⟨h.1.trans (by decide), h.2.trans (by decide)⟩

/-! ## Mail-sender selection -/

lemma readSource_sender_of_no_section (c : Config) (s : ConfigSource)
    (h : hasMailSenderSection s = false) : (c.readSource s).sender = c.sender := by
  cases s with
  | file f =>
    obtain ⟨g, m⟩ := f
    cases m with
    | none =>
      cases g <;>
        simp only [Config.readSource, Config.read_file] <;> (repeat' split) <;> rfl
    | some ms => simp [hasMailSenderSection] at h
  | argv a =>
    obtain ⟨ha, ra⟩ := a
    cases ha <;> cases ra <;>
      simp only [Config.readSource, Config.read_argv, Option.map] <;>
      (repeat' split) <;> rfl

lemma readSources_sender_of_no_sections (ss : List ConfigSource) :
    ∀ c : Config, (∀ s ∈ ss, hasMailSenderSection s = false) →
      (c.readSources ss).sender = c.sender := by
  induction ss with
  | nil => intro c _; rfl
  | cons s ss ih =>
    intro c hc
    have h1 : (c.readSource s).sender = c.sender :=
      readSource_sender_of_no_section c s (hc s (List.mem_cons_self s ss))
    have h2 := ih (c.readSource s) fun t ht => hc t (List.mem_cons_of_mem s ht)
    exact h2.trans h1

/-- C6: starting from a freshly constructed `Config` and applying any
sources none of which carries a `MailSender` section, the selected
mail-sender is the local-transport (`sendmail`) strategy. -/
theorem no_mailsender_section_defaults_to_sendmail (ss : List ConfigSource)
    (h : ∀ s ∈ ss, hasMailSenderSection s = false) :
    (Config.init.readSources ss).sender = MailSender.sendmail :=
  (readSources_sender_of_no_sections ss Config.init h).trans rfl

/-- C6 witness: a file with only a `General` section, then a command
line with `--hosts`. -/
theorem no_mailsender_section_defaults_to_sendmail_witness :
    (Config.init.readSources
      [ConfigSource.file ⟨some ⟨some "a.com", none⟩, none⟩,
       ConfigSource.argv ⟨some "c.com", none⟩]).sender = MailSender.sendmail :=
  no_mailsender_section_defaults_to_sendmail
    [ConfigSource.file ⟨some ⟨some "a.com", none⟩, none⟩,
     ConfigSource.argv ⟨some "c.com", none⟩]
    (by decide)

/-- C7: a file whose `MailSender` section has `Type=smtplib` selects
the relay strategy, with server address the `Address` value when that
key is present and `"localhost"` when it is absent. -/
theorem smtplib_type_selects_relay_with_default_localhost (c : Config)
    (g : Option GeneralSection) (addr : Option String) :
    (c.read_file ⟨g, some ⟨some "smtplib", addr⟩⟩).sender
      = MailSender.smtplib (addr.getD "localhost") := by
  cases g <;> simp only [Config.read_file] <;> (repeat' split) <;> simp_all

/-- C7 witness: with no `Address` key the relay address is
`localhost`; with `Address=smtp.abc.com` it is `smtp.abc.com`. -/
theorem smtplib_type_selects_relay_with_default_localhost_witness :
    (Config.init.read_file ⟨none, some ⟨some "smtplib", none⟩⟩).sender
        = MailSender.smtplib "localhost"
    ∧ (Config.init.read_file ⟨none, some ⟨some "smtplib", some "smtp.abc.com"⟩⟩).sender
        = MailSender.smtplib "smtp.abc.com" :=
  ⟨smtplib_type_selects_relay_with_default_localhost Config.init none none,
   smtplib_type_selects_relay_with_default_localhost Config.init none (some "smtp.abc.com")⟩

/-- C9: a file whose `MailSender` section has a `Type` other than
`sendmail` or `smtplib` (the absent key included) leaves the selected
mail-sender unchanged: only the hosts and recipients fields of the
configuration can differ after such a read. -/
theorem unknown_sender_type_preserves_sender (c : Config)
    (g : Option GeneralSection) (m : MailSenderSection)
    (h1 : m.typeKey ≠ some "smtplib") (h2 : m.typeKey ≠ some "sendmail") :
    (c.read_file ⟨g, some m⟩).sender = c.sender
    ∧ c.read_file ⟨g, some m⟩
        = { hosts := (c.read_file ⟨g, some m⟩).hosts
            recipients := (c.read_file ⟨g, some m⟩).recipients
            sender := c.sender } := by
  have hs : (c.read_file ⟨g, some m⟩).sender = c.sender := by
    cases g <;> simp only [Config.read_file] <;> (repeat' split) <;> simp_all
  exact ⟨hs, by rw [← hs]⟩

/-- C9 witness: `Type=other` and an absent `Type` key both leave the
default sender in place. -/
theorem unknown_sender_type_preserves_sender_witness :
    (Config.init.read_file ⟨none, some ⟨some "other", none⟩⟩).sender
        = Config.init.sender
    ∧ (Config.init.read_file ⟨some ⟨some "a.com", none⟩, some ⟨none, some "x"⟩⟩).sender
        = Config.init.sender :=
  ⟨(unknown_sender_type_preserves_sender Config.init none ⟨some "other", none⟩
      (by decide) (by decide)).1,
   (unknown_sender_type_preserves_sender Config.init (some ⟨some "a.com", none⟩)
      ⟨none, some "x"⟩ (by decide) (by decide)).1⟩

/-! ## Occurrence lemmas -/

lemma occursIn_refl (p : String) : occursIn p p :=
  ⟨[], [], by simp⟩

lemma occursIn_append_left {p a : String} (b : String) (h : occursIn p a) :
    occursIn p (a ++ b) := by
  obtain ⟨l, r, hd⟩ := h
  exact ⟨l, r ++ b.data, by simp [String.data_append, hd]⟩

lemma occursIn_append_right {p b : String} (a : String) (h : occursIn p b) :
    occursIn p (a ++ b) := by
  obtain ⟨l, r, hd⟩ := h
  exact ⟨a.data ++ l, r, by simp [String.data_append, hd]⟩

/-! ## Probe claims -/

/-- C2 (amended): `check_ping` reports success exactly when the exit
code is zero and the packet-loss search does not produce a non-zero
percentage group (a match of `0`, or no match at all, in the output). -/
theorem check_ping_success_iff (out err : String) (code : Nat) :
    (check_ping out err code).1 = true
      ↔ (code = 0 ∧ (parsePacketLoss out).getD "0" = "0") := by
  cases hp : parsePacketLoss out with
  | none => simp [check_ping, hp]
  | some g =>
    by_cases hg : g = "0"
    · subst hg; simp [check_ping, hp]
    · simp [check_ping, hp, hg]

/-- C2 witness: a quiet ping summary with `0% packet loss` and exit
code 0 is a success. -/
theorem check_ping_success_iff_witness :
    (check_ping "5 packets transmitted, 5 received, 0% packet loss, time 4004ms"
      "" 0).1 = true :=
  (check_ping_success_iff
      "5 packets transmitted, 5 received, 0% packet loss, time 4004ms" "" 0).mpr
    ⟨rfl, rfl⟩

/-- C2 counterexample to the claim as stated: with empty output and
exit code 0 the host is marked successful, yet the probe reports no
packet-loss figure at all, so success is not equivalent to "zero packet
loss reported and zero exit status". -/
theorem check_ping_claim_counterexample :
    ¬ (((check_ping "" "" 0).1 = true)
        ↔ (parsePacketLoss "" = some "0" ∧ (0 : Nat) = 0)) := by
  decide

/-- C4: a parsed non-zero packet-loss group `g` makes the failure
message exactly `g% packet loss.`; a non-zero exit with no parseable
loss percentage yields a message containing the captured standard
output and standard error text. -/
theorem check_ping_failure_message (out err : String) (code : Nat) :
    (∀ g, parsePacketLoss out = some g → g ≠ "0" →
        check_ping out err code = (false, g ++ "% packet loss."))
    ∧ (code ≠ 0 → parsePacketLoss out = none →
        occursIn out (check_ping out err code).2
        ∧ occursIn err (check_ping out err code).2) := by
  constructor
  · intro g hp hg
    simp [check_ping, hp, hg]
  · intro hc hp
    have hmsg : (check_ping out err code).2 = capturedOutputMsg out err := by
      simp [check_ping, hp, hc]
    rw [hmsg]
    unfold capturedOutputMsg pyBytesRepr
    constructor
    · exact occursIn_append_left _ (occursIn_append_left _
        (occursIn_append_right _
          (occursIn_append_left _ (occursIn_append_right _ (occursIn_refl out)))))
    · exact occursIn_append_right _
        (occursIn_append_left _ (occursIn_append_right _ (occursIn_refl err)))

/-- C4 witness: `20% packet loss` in the output gives the exact
message `20% packet loss.`, and a non-zero exit with unparseable output
keeps that output in the message. -/
theorem check_ping_failure_message_witness :
    check_ping "5 packets transmitted, 4 received, 20% packet loss" "" 0
        = (false, "20% packet loss.")
    ∧ occursIn "ping: unknown host" (check_ping "ping: unknown host" "boom" 2).2 :=
  ⟨(check_ping_failure_message "5 packets transmitted, 4 received, 20% packet loss"
      "" 0).1 "20" rfl (by decide),
   ((check_ping_failure_message "ping: unknown host" "boom" 2).2
      (by decide) rfl).1⟩

/-! ## Sendmail delivery lemmas -/

lemma sendmail_send_from_all_zero (exit : Nat → Nat) :
    ∀ (rs : List String) (k : Nat), (∀ j, j < rs.length → exit (k + j) = 0) →
      sendmail_send_from exit k rs = { attempted := rs, delivered := rs, error := none } := by
  intro rs
  induction rs with
  | nil => intro k _; rfl
  | cons r rs ih =>
    intro k h
    have h0 : exit k = 0 := by simpa using h 0 (Nat.succ_pos rs.length)
    have hrest : ∀ j, j < rs.length → exit (k + 1 + j) = 0 := by
      intro j hj
      have := h (j + 1) (Nat.succ_lt_succ hj)
      simpa [Nat.add_assoc, Nat.add_comm, Nat.add_left_comm] using this
    simp [sendmail_send_from, h0, ih (k + 1) hrest]

lemma sendmail_send_from_first_fail (exit : Nat → Nat) :
    ∀ (rs : List String) (k i : Nat), i < rs.length →
      (∀ j, j < i → exit (k + j) = 0) → exit (k + i) ≠ 0 →
      sendmail_send_from exit k rs =
        { attempted := rs.take (i + 1), delivered := rs.take i,
          error := some "sendmail failed." } := by
  intro rs
  induction rs with
  | nil => intro k i hi; exact absurd hi (Nat.not_lt_zero i)
  | cons r rs ih =>
    intro k i hi hpre hfail
    cases i with
    | zero =>
      have h0 : exit k ≠ 0 := by simpa using hfail
      simp [sendmail_send_from, h0]
    | succ i =>
      have h0 : exit k = 0 := by simpa using hpre 0 (Nat.succ_pos i)
      have hpre' : ∀ j, j < i → exit (k + 1 + j) = 0 := by
        intro j hj
        have := hpre (j + 1) (Nat.succ_lt_succ hj)
        simpa [Nat.add_assoc, Nat.add_comm, Nat.add_left_comm] using this
      have hfail' : exit (k + 1 + i) ≠ 0 := by
        have : k + 1 + i = k + (i + 1) := by omega
        rw [this]; exact hfail
      have hrec := ih (k + 1) i (Nat.lt_of_succ_lt_succ hi) hpre' hfail'
      simp [sendmail_send_from, h0, hrec]

/-- C5: with every invocation exiting 0, `sendmail_MailSender.send`
invokes the transport agent exactly once per recipient and raises
nothing; the first non-zero exit (at position `k`, earlier invocations
succeeding) raises `sendmail failed.` immediately, so exactly the first
`k + 1` recipients were attempted, each by a single invocation, and no
retry happens. -/
theorem sendmail_send_per_recipient_no_retry (exit : Nat → Nat) (recipients : List String) :
    ((∀ k, k < recipients.length → exit k = 0) →
        sendmail_send exit recipients =
          { attempted := recipients, delivered := recipients, error := none })
    ∧ (∀ k, k < recipients.length → (∀ j, j < k → exit j = 0) → exit k ≠ 0 →
        sendmail_send exit recipients =
          { attempted := recipients.take (k + 1), delivered := recipients.take k,
            error := some "sendmail failed." }) := by
  constructor
  · intro h
    exact sendmail_send_from_all_zero exit recipients 0 fun j hj => by
      simpa using h j hj
  · intro k hk hpre hfail
    exact sendmail_send_from_first_fail exit recipients 0 k hk
      (fun j hj => by simpa using hpre j hj) (by simpa using hfail)

/-- C5 witness: two clean invocations deliver to both recipients; with
exit statuses 0 then 1 on three recipients, the error is raised after
the second invocation and the third recipient is never attempted. -/
theorem sendmail_send_per_recipient_no_retry_witness :
    sendmail_send (fun _ => 0) ["a@b.com", "c@d.com"]
        = { attempted := ["a@b.com", "c@d.com"], delivered := ["a@b.com", "c@d.com"],
            error := none }
    ∧ sendmail_send (fun j => j) ["a@b.com", "c@d.com", "e@f.com"]
        = { attempted := ["a@b.com", "c@d.com"], delivered := ["a@b.com"],
            error := some "sendmail failed." } :=
  ⟨(sendmail_send_per_recipient_no_retry (fun _ => 0) ["a@b.com", "c@d.com"]).1
      (by decide),
   ((sendmail_send_per_recipient_no_retry (fun j => j)
      ["a@b.com", "c@d.com", "e@f.com"]).2 1 (by decide) (by decide) (by decide)).trans
      (by decide)⟩

/-- C10: delivery through the local transport is not atomic on error:
when the invocation for the recipient at position `k` is the first to
exit non-zero, the exception is raised only after the message was
already delivered to the `k` earlier recipients, and the recipients
after position `k` are never attempted. -/
theorem sendmail_send_not_atomic (exit : Nat → Nat) (recipients : List String) (k : Nat)
    (hlen : 2 ≤ recipients.length) (hk : k < recipients.length)
    (hpre : ∀ j, j < k → exit j = 0) (hfail : exit k ≠ 0) :
    (sendmail_send exit recipients).error = some "sendmail failed."
    ∧ (sendmail_send exit recipients).delivered = recipients.take k
    ∧ (sendmail_send exit recipients).attempted = recipients.take (k + 1) := by
  have h := sendmail_send_from_first_fail exit recipients 0 k hk
    (fun j hj => by simpa using hpre j hj) (by simpa using hfail)
  rw [sendmail_send, h]
  exact ⟨rfl, rfl, rfl⟩

/-- C10 witness: three recipients, failure at position 1: the first
recipient got the message, the third was never attempted. -/
theorem sendmail_send_not_atomic_witness :
    (sendmail_send (fun j => if j = 1 then 7 else 0) ["p@q.com", "r@s.com", "t@u.com"]).error
        = some "sendmail failed."
    ∧ (sendmail_send (fun j => if j = 1 then 7 else 0) ["p@q.com", "r@s.com", "t@u.com"]).delivered
        = ["p@q.com"]
    ∧ (sendmail_send (fun j => if j = 1 then 7 else 0) ["p@q.com", "r@s.com", "t@u.com"]).attempted
        = ["p@q.com", "r@s.com"] := by
  have h := sendmail_send_not_atomic (fun j => if j = 1 then 7 else 0)
    ["p@q.com", "r@s.com", "t@u.com"] 1 (by decide) (by decide) (by decide) (by decide)
  exact ⟨h.1, h.2.1.trans (by decide), h.2.2.trans (by decide)⟩

/-! ## Relay delivery (C3) -/

/-- C3: `smtplib_MailSender.send` never submits a message: line 68 of
the source refers to the undefined name `smptlib` (the module imported
is `smtplib`), so the call raises `NameError` instead of completing
without error, even for a non-empty recipient list the relay would
accept. -/
theorem smtplib_send_raises_nameerror :
    smtplib_send "localhost" ["a@b.com"] (reportBody ["a.com"] [])
      = Except.error ("NameError: name \x27smptlib\x27 is not defined") := rfl

/-! ## Report message (C8) -/

lemma occursIn_pyJoin (sep : String) (l : List String) (x : String) (hx : x ∈ l) :
    occursIn x (pyJoin sep l) := by
  induction l with
  | nil => cases hx
  | cons y ys ih =>
    cases ys with
    | nil =>
      have : x = y := by simpa using hx
      subst this
      exact occursIn_refl x
    | cons z zs =>
      rcases List.mem_cons.mp hx with rfl | hx'
      · exact occursIn_append_left _ (occursIn_append_left _ (occursIn_refl x))
      · exact occursIn_append_right _ (ih hx')

lemma occursIn_failureLines (failures : List (String × String)) (p : String × String)
    (hp : p ∈ failures) :
    occursIn (" - " ++ p.1 ++ " failed with the following error: " ++ p.2 ++ "\n")
      (failureLines failures) := by
  induction failures with
  | nil => cases hp
  | cons q qs ih =>
    rcases List.mem_cons.mp hp with rfl | hp'
    · exact occursIn_append_left _ (occursIn_refl _)
    · exact occursIn_append_right _ (ih hp')

/-- C8: the report built by `send_email_report` is one plain-text
message whose body contains a ` - host` line for every checked host,
states that all hosts are up when the failure map is empty, and
otherwise contains, for each failed host, a line with that host and its
failure message. -/
theorem send_email_report_lists_hosts_and_failures (hosts : List String)
    (failures : List (String × String)) (recipients : List String) :
    (∀ h ∈ hosts,
        occursIn (" - " ++ h) (send_email_report hosts failures recipients).body)
    ∧ (failures = [] →
        occursIn "All hosts are up." (send_email_report hosts failures recipients).body)
    ∧ (∀ p ∈ failures,
        occursIn (" - " ++ p.1 ++ " failed with the following error: " ++ p.2 ++ "\n")
          (send_email_report hosts failures recipients).body) := by
  refine ⟨?_, ?_, ?_⟩
  · intro h hh
    show occursIn (" - " ++ h) (reportBody hosts failures)
    unfold reportBody
    exact occursIn_append_left _ (occursIn_append_left _ (occursIn_append_left _
      (occursIn_append_right _
        (occursIn_pyJoin "\n" _ _ (List.mem_map_of_mem (fun host => " - " ++ host) hh)))))
  · intro hf
    show occursIn "All hosts are up." (reportBody hosts failures)
    unfold reportBody
    rw [if_pos hf]
    exact occursIn_append_left _ (occursIn_append_right _ (occursIn_refl _))
  · intro p hp
    have hne : failures ≠ [] := List.ne_nil_of_mem hp
    show occursIn _ (reportBody hosts failures)
    unfold reportBody
    rw [if_neg hne]
    exact occursIn_append_left _ (occursIn_append_right _
      (occursIn_failureLines failures p hp))

/-- C8 witness: two hosts, one failure: the body contains both host
lines and the failure line. -/
theorem send_email_report_lists_hosts_and_failures_witness :
    occursIn (" - " ++ "a.com")
        (send_email_report ["a.com", "b.com"] [("b.com", "20% packet loss.")]
          ["x@y.com"]).body
    ∧ occursIn
        (" - " ++ "b.com" ++ " failed with the following error: "
          ++ "20% packet loss." ++ "\n")
        (send_email_report ["a.com", "b.com"] [("b.com", "20% packet loss.")]
          ["x@y.com"]).body :=
  ⟨(send_email_report_lists_hosts_and_failures ["a.com", "b.com"]
      [("b.com", "20% packet loss.")] ["x@y.com"]).1 "a.com" (by decide),
   (send_email_report_lists_hosts_and_failures ["a.com", "b.com"]
      [("b.com", "20% packet loss.")] ["x@y.com"]).2.2
      ("b.com", "20% packet loss.") (by decide)⟩

end HostChecker
